import Mathlib

/-!
Verification of the PAN_ENGINE report pipeline (src/PAN_ENGINE/app.go).

The Go program is shallowly embedded: JSON-decoded payloads
(`interface{}` values produced by `json.Unmarshal`) become the inductive
`GoValue`; the long-lived `App` fields become explicit state records;
file, network and random-number effects become explicit parameters
(oracles for the HTTP client, an explicit nonce for the random draw).
Machine integers that matter (`maxRows`) are modelled as `Int`;
byte strings are `List Nat`.
-/

namespace PanEngine

/-- A JSON-decoded Go `interface{}` value as produced by `json.Unmarshal`
in `callPaloAltoAPI` (app.go): an object (`map[string]interface{}`),
an array (`[]interface{}`), a string, a number (`float64`; modelled on its
integer-valued fragment, where `strconv.FormatFloat(v, 'f', -1, 64)` and
`%v` both print the plain digits), a boolean, or `nil`. -/
inductive GoValue where
  | vmap : List (String × GoValue) → GoValue
  | varr : List GoValue → GoValue
  | vstr : String → GoValue
  | vnum : Int → GoValue
  | vbool : Bool → GoValue
  | vnull : GoValue

/-- Lower-case a string, modelling Go `strings.ToLower` on ASCII data. -/
def toLowerStr (s : String) : String := String.mk (s.data.map Char.toLower)

/-- Substring search on character lists, modelling Go `strings.Contains`:
the empty pattern is contained in every string. -/
def subSearch (pat : List Char) : List Char → Bool
  | [] => pat.isEmpty
  | c :: rest => pat.isPrefixOf (c :: rest) || subSearch pat rest

/-- Go `strings.Contains s pat`. -/
def strContains (s pat : String) : Bool := subSearch pat.data s.data

/-- Executable lexicographic comparison of character lists (the order
Go `sort.Strings` uses on ASCII data). -/
def listLeB : List Char → List Char → Bool
  | [], _ => true
  | _ :: _, [] => false
  | c :: cs, d :: ds =>
    if c < d then true
    else if d < c then false
    else listLeB cs ds

/-- Executable lexicographic comparison of strings. -/
def strLeB (a b : String) : Bool := listLeB a.data b.data

/-- The executable comparison decides the lexicographic strict order:
`listLeB s t` holds exactly when `t` is not lexicographically below
`s`. -/
theorem listLeB_iff :
    ∀ s t : List Char, listLeB s t = true ↔ ¬ List.Lex (· < ·) t s
  | [], t => by
    simp only [listLeB]
    exact ⟨fun _ => List.Lex.not_nil_right _ t, fun _ => trivial⟩
  | c :: cs, [] => by
    simp only [listLeB, Bool.false_eq_true, false_iff, not_not]
    exact List.Lex.nil
  | c :: cs, d :: ds => by
    rcases lt_trichotomy c d with hlt | heq | hgt
    · simp only [listLeB, if_pos hlt, true_iff]
      intro hlex
      cases hlex with
      | cons h => exact lt_irrefl c hlt
      | rel h => exact lt_asymm hlt h
    · subst heq
      simp only [listLeB, if_neg (lt_irrefl c), List.Lex.cons_iff]
      exact listLeB_iff cs ds
    · simp only [listLeB, if_neg (lt_asymm hgt), if_pos hgt,
        Bool.false_eq_true, false_iff, not_not]
      exact List.Lex.rel hgt

/-- The executable comparison agrees with the lexicographic `≤` on
strings. -/
theorem strLeB_iff (a b : String) : strLeB a b = true ↔ a ≤ b := by
  rw [String.le_iff_toList_le, ← not_lt]
  exact listLeB_iff a.data b.data

/-- A `Decidable` instance for string `≤` that the kernel can
evaluate, via the executable comparison. -/
def decStrLe : DecidableRel (fun a b : String => a ≤ b) :=
  fun a b => decidable_of_iff (strLeB a b = true) (strLeB_iff a b)

/-- Sort a list of strings lexicographically, modelling Go
`sort.Strings` (insertion sort under the decidable `≤`). -/
def sortStrings (l : List String) : List String :=
  @List.insertionSort String (fun a b : String => a ≤ b) decStrLe l

/-- `sortStrings` output is sorted under `≤`. -/
theorem sortStrings_sorted (l : List String) :
    List.Sorted (fun a b : String => a ≤ b) (sortStrings l) :=
  @List.sorted_insertionSort String (fun a b : String => a ≤ b) decStrLe
    inferInstance inferInstance l

/-- `sortStrings` permutes its input. -/
theorem sortStrings_perm (l : List String) : (sortStrings l).Perm l :=
  @List.perm_insertionSort String (fun a b : String => a ≤ b) decStrLe l

/-- Insert a key/value pair into a key-sorted list (helper for the
sorted-key rendering that Go `fmt` applies to maps). -/
def insertPairLe (p : String × String) : List (String × String) → List (String × String)
  | [] => [p]
  | q :: qs => if strLeB p.1 q.1 then p :: q :: qs else q :: insertPairLe p qs

/-- Sort key/value pairs by key (Go `fmt` prints map keys in sorted order). -/
def sortPairsByKey (l : List (String × String)) : List (String × String) :=
  l.foldr insertPairLe []

/-- Join strings with single spaces, as Go `fmt` does inside `[...]` and
`map[...]` renderings. -/
def joinSpace : List String → String
  | [] => ""
  | [s] => s
  | s :: rest => s ++ " " ++ joinSpace rest

mutual

/-- Go `fmt.Sprintf("%v", val)` on a JSON-decoded value: strings print
bare, booleans as `true`/`false`, `nil` as `<nil>`, numbers as digits,
arrays as `[a b]`, maps as `map[k1:v1 k2:v2]` with sorted keys. -/
def goFormat : GoValue → String
  | .vstr s => s
  | .vnum n => toString n
  | .vbool true => "true"
  | .vbool false => "false"
  | .vnull => "<nil>"
  | .varr vs => "[" ++ joinSpace (goFormatList vs) ++ "]"
  | .vmap kvs =>
      "map[" ++ joinSpace ((sortPairsByKey (goFormatPairs kvs)).map
        (fun p => p.1 ++ ":" ++ p.2)) ++ "]"

/-- `%v` rendering of each element of an array value. -/
def goFormatList : List GoValue → List String
  | [] => []
  | v :: vs => goFormat v :: goFormatList vs

/-- `%v` rendering of each value of an object, keeping the key. -/
def goFormatPairs : List (String × GoValue) → List (String × String)
  | [] => []
  | (k, v) :: rest => (k, goFormat v) :: goFormatPairs rest

end

/-- `formatValueForCSV` (app.go:814-832): numbers via
`strconv.FormatFloat(v, 'f', -1, 64)`, `nil` as the empty string,
booleans as `Yes`/`No`, everything else through `fmt.Sprintf("%v", val)`.
The `time.Time` arm of the Go switch is unreachable for JSON-decoded
payloads and is omitted. -/
def formatValueForCSV : GoValue → String
  | .vnum n => toString n
  | .vnull => ""
  | .vbool true => "Yes"
  | .vbool false => "No"
  | v => goFormat v

/-! ## Credential Vault (encryptAPIKey / decryptAPIKey, app.go:173-246)

The Go code seals the API key with AES-256-GCM under a key derived by
`sha256.Sum256("PAN_ENGINE_SECRET_KEY")`, prepends the fresh 12-byte
nonce, and base64-encodes the result; decryption decodes, checks the
length against the nonce size, splits, and authenticates.

The AEAD core (`cipher.NewGCM` over `crypto/aes`) is standard-library
code, embedded here as an algebraic model with the same interface and
data layout: a keystream XOR for the body (CTR mode) and a 16-byte
authentication tag whose first byte is a longitudinal redundancy check
over key, nonce and ciphertext body — an idealisation of GHASH that is
sound for the round-trip and single-bit-tamper properties stated below.
Base64 is a bijection between byte strings and their encodings, so both
functions are modelled on the decoded bytes (`List Nat`). -/

/-- XOR-fold of a byte list (used by the model keystream and tag). -/
def xorAll : List Nat → Nat
  | [] => 0
  | b :: bs => b ^^^ xorAll bs

/-- GCM nonce size used by the Go code (`gcm.NonceSize()` = 12). -/
def nonceSize : Nat := 12

/-- GCM tag size (`gcm.Overhead()` = 16). -/
def tagSize : Nat := 16

/-- Model of `sha256.Sum256([]byte("PAN_ENGINE_SECRET_KEY"))`: a fixed
32-byte key, constant across the process as in the source. -/
def panKey : List Nat := List.replicate 32 7

/-- Model keystream byte `i` for a given key and nonce (stands for the
AES-CTR stream inside GCM; any key/nonce-determined stream yields the
same algebra). -/
def keystream (key nonce : List Nat) (i : Nat) : Nat :=
  (xorAll key ^^^ xorAll nonce ^^^ i) % 256

/-- XOR a byte list against the keystream starting at position `i`
(encryption and decryption of the GCM body are the same operation). -/
def xorStream (key nonce : List Nat) : Nat → List Nat → List Nat
  | _, [] => []
  | i, b :: bs => (b ^^^ keystream key nonce i) :: xorStream key nonce (i + 1) bs

/-- Model 16-byte authentication tag over key, nonce and ciphertext
body; its first byte is an XOR checksum of all three. -/
def gcmTag (key nonce body : List Nat) : List Nat :=
  (xorAll key ^^^ xorAll nonce ^^^ xorAll body) :: List.replicate (tagSize - 1) 0

/-- `gcm.Seal(nonce, nonce, plaintext, nil)`: nonce, then the encrypted
body, then the tag. -/
def gcmSeal (key nonce plain : List Nat) : List Nat :=
  let body := xorStream key nonce 0 plain
  nonce ++ body ++ gcmTag key nonce body

/-- `gcm.Open(nil, nonce, ciphertext, nil)`: split off the trailing tag,
recompute it, and decrypt the body only on a match. -/
def gcmOpen (key nonce ct : List Nat) : Except String (List Nat) :=
  if ct.length < tagSize then .error "cipher: message authentication failed"
  else
    let body := ct.take (ct.length - tagSize)
    let tg := ct.drop (ct.length - tagSize)
    if tg = gcmTag key nonce body then .ok (xorStream key nonce 0 body)
    else .error "cipher: message authentication failed"

/-- `encryptAPIKey` (app.go:173-204) on the decoded bytes: the empty key
encrypts to the empty string; otherwise the freshly drawn `nonce`
(passed explicitly, standing for `rand.Reader`) is prepended to the
sealed ciphertext. -/
def encryptAPIKey (nonce plain : List Nat) : List Nat :=
  if plain = [] then [] else gcmSeal panKey nonce plain

/-- `decryptAPIKey` (app.go:207-246) on the decoded bytes: empty input
decrypts to the empty key; data shorter than the nonce size is rejected
as "ciphertext too short"; otherwise the nonce is split off and the
remainder authenticated and decrypted. -/
def decryptAPIKey (data : List Nat) : Except String (List Nat) :=
  if data = [] then .ok []
  else if data.length < nonceSize then .error "ciphertext too short"
  else gcmOpen panKey (data.take nonceSize) (data.drop nonceSize)

/-- Flip bit `k % 8` of byte `k / 8` of a byte string (the tampering
operation of the spec round-trip property). -/
def flipBit (data : List Nat) (k : Nat) : List Nat :=
  data.set (k / 8) (data.getD (k / 8) 0 ^^^ 2 ^ (k % 8))

/-! ## Settings persistence (loadSettings, app.go:100-137) -/

/-- The fields of the persisted `Settings` JSON object that the core
interprets (app.go:64-72); `encrypted_key` is stored base64-encoded and
modelled by its decoded bytes, the cosmetic fields are not interpreted
by `loadSettings`. -/
structure Settings where
  apiURL : String
  encryptedKey : List Nat
  maxRows : Int
  reportFormat : String

/-- The `App` fields that `loadSettings` mutates (app.go:37-50); the
API key is modelled by its bytes. -/
structure AppState where
  apiURL : String
  apiKey : List Nat
  maxRows : Int
  reportFormat : String

/-- `NewApp` (app.go:53-61): empty credentials, `maxRows = 1000`,
`reportFormat = "standard"`. -/
def newApp : AppState :=
  { apiURL := "", apiKey := [], maxRows := 1000, reportFormat := "standard" }

/-- `loadSettings` (app.go:100-137) from the already parsed settings
record (the stat/read/unmarshal failures of the Go code happen before
this point and are modelled upstream): apply the URL; if the stored
encrypted key is non-empty, decrypt it and install the result only when
decryption succeeded (`if err == nil`) — a failed decryption is
discarded and the load continues; apply positive `maxRows` and
non-empty `reportFormat`; return `nil`. -/
def loadSettings (a : AppState) (s : Settings) : AppState × Except String Unit :=
  let a1 := { a with apiURL := s.apiURL }
  let a2 :=
    if s.encryptedKey ≠ [] then
      match decryptAPIKey s.encryptedKey with
      | .ok k => { a1 with apiKey := k }
      | .error _ => a1
    else a1
  let a3 := if s.maxRows > 0 then { a2 with maxRows := s.maxRows } else a2
  let a4 := if s.reportFormat ≠ "" then { a3 with reportFormat := s.reportFormat } else a3
  (a4, .ok ())

/-! ## Endpoint registry (getEndpointForReportType, app.go:499-582) -/

/-- The report-type → API-path table of `getEndpointForReportType`
(app.go:500-579), verbatim. -/
def endpoints : List (String × String) := [
  ("applications", "/restapi/v11.0/Objects/Applications"),
  ("appGroups", "/restapi/v11.0/Objects/ApplicationGroups"),
  ("appFilters", "/restapi/v11.0/Objects/ApplicationFilters"),
  ("services", "/restapi/v11.0/Objects/Services"),
  ("serviceGroups", "/restapi/v11.0/Objects/ServiceGroups"),
  ("tags", "/restapi/v11.0/Objects/Tags"),
  ("hipObjects", "/restapi/v11.0/Objects/GlobalProtectHIPObjects"),
  ("hipProfiles", "/restapi/v11.0/Objects/GlobalProtectHIPProfiles"),
  ("edl", "/restapi/v11.0/Objects/ExternalDynamicLists"),
  ("dataPatterns", "/restapi/v11.0/Objects/CustomDataPatterns"),
  ("spywareSigs", "/restapi/v11.0/Objects/CustomSpywareSignatures"),
  ("vulnSigs", "/restapi/v11.0/Objects/CustomVulnerabilitySignatures"),
  ("urlCategories", "/restapi/v11.0/Objects/CustomURLCategories"),
  ("antivirusProfiles", "/restapi/v11.0/Objects/AntivirusSecurityProfiles"),
  ("antispywareProfiles", "/restapi/v11.0/Objects/AntiSpywareSecurityProfiles"),
  ("vulnProtectionProfiles", "/restapi/v11.0/Objects/VulnerabilityProtectionSecurityProfiles"),
  ("urlFilteringProfiles", "/restapi/v11.0/Objects/URLFilteringSecurityProfiles"),
  ("fileBlockingProfiles", "/restapi/v11.0/Objects/FileBlockingSecurityProfiles"),
  ("wildfireProfiles", "/restapi/v11.0/Objects/WildFireAnalysisSecurityProfiles"),
  ("dataFilteringProfiles", "/restapi/v11.0/Objects/DataFilteringSecurityProfiles"),
  ("dosProtectionProfiles", "/restapi/v11.0/Objects/DoSProtectionSecurityProfiles"),
  ("securityProfileGroups", "/restapi/v11.0/Objects/SecurityProfileGroups"),
  ("securityRules", "/restapi/v11.0/Policies/SecurityRules"),
  ("natRules", "/restapi/v11.0/Policies/NATRules"),
  ("qosRules", "/restapi/v11.0/Policies/QoSRules"),
  ("pbfRules", "/restapi/v11.0/Policies/PolicyBasedForwardingRules"),
  ("decryptionRules", "/restapi/v11.0/Policies/DecryptionRules"),
  ("packetBrokerRules", "/restapi/v11.0/Policies/NetworkPacketBrokerRules"),
  ("tunnelInspectionRules", "/restapi/v11.0/Policies/TunnelInspectionRules"),
  ("appOverrideRules", "/restapi/v11.0/Policies/ApplicationOverrideRules"),
  ("authRules", "/restapi/v11.0/Policies/AuthenticationRules"),
  ("dosRules", "/restapi/v11.0/Policies/DoSRules"),
  ("sdwanRules", "/restapi/v11.0/Policies/SDWANRules"),
  ("ethernetInterfaces", "/restapi/v11.0/Network/EthernetInterfaces"),
  ("aeInterfaces", "/restapi/v11.0/Network/AggregateEthernetInterfaces"),
  ("vlanInterfaces", "/restapi/v11.0/Network/VLANInterfaces"),
  ("loopbackInterfaces", "/restapi/v11.0/Network/LoopbackInterfaces"),
  ("tunnelInterfaces", "/restapi/v11.0/Network/TunnelIntefaces"),
  ("sdwanInterfaces", "/restapi/v11.0/Network/SDWANInterfaces"),
  ("zones", "/restapi/v11.0/Network/Zones"),
  ("vlans", "/restapi/v11.0/Network/VLANs"),
  ("virtualWires", "/restapi/v11.0/Network/VirtualWires"),
  ("virtualRouters", "/restapi/v11.0/Network/VirtualRouters"),
  ("gpPortals", "/restapi/v11.0/Network/GlobalProtectPortals"),
  ("gpGateways", "/restapi/v11.0/Network/GlobalProtectGateways"),
  ("gpAgentTunnels", "/restapi/v11.0/Network/GlobalProtectGatewayAgentTunnels"),
  ("gpSatelliteTunnels", "/restapi/v11.0/Network/GlobalProtectGatewaySatelliteTunnels"),
  ("gpMdmServers", "/restapi/v11.0/Network/GlobalProtectGatewayMDMServers"),
  ("gpClientlessApps", "/restapi/v11.0/Network/GlobalProtectClientlessApps"),
  ("gpClientlessAppGroups", "/restapi/v11.0/Network/GlobalProtectClientlessAppGroups"),
  ("traffic", "/restapi/v11.0/Objects/TrafficLogs"),
  ("threat", "/restapi/v11.0/Objects/ThreatLogs"),
  ("url", "/restapi/v11.0/Objects/URLFilteringLogs"),
  ("data", "/restapi/v11.0/Objects/DataFilteringLogs"),
  ("wildfire", "/restapi/v11.0/Objects/WildFireLogs"),
  ("auth", "/restapi/v11.0/Objects/AuthenticationLogs"),
  ("system", "/restapi/v11.0/Objects/SystemLogs"),
  ("config", "/restapi/v11.0/Objects/ConfigLogs"),
  ("correlation", "/restapi/v11.0/Objects/CorrelationLogs"),
  ("systemInfo", "/api/?type=op&cmd=<show><s><info></info></s></show>"),
  ("interfaceInfo", "/api/?type=op&cmd=<show><interface>all</interface></show>"),
  ("systemResources", "/api/?type=op&cmd=<show><s><resources></resources></s></show>"),
  ("gpUsers", "/api/?type=op&cmd=<show><global-protect-gateway><current-user></current-user></global-protect-gateway></show>"),
  ("activeSessions", "/api/?type=op&cmd=<show><session><all></all></session></show>"),
  ("softwareVersion", "/api/?type=op&cmd=<show><s><software></software></s></show>")]

/-- `getEndpointForReportType` (app.go:499-582): a Go map lookup, whose
zero value for a missing key is the empty string. -/
def getEndpointForReportType (reportType : String) : String :=
  (List.lookup reportType endpoints).getD ""

/-! ## Report cache and GenerateReport (app.go:343-377) -/

/-- Overwrite the value at a key of the session cache
(`a.reportData[k] = v`; Go map assignment). -/
def mapSet (c : List (String × GoValue)) (k : String) (v : GoValue) :
    List (String × GoValue) :=
  (k, v) :: c.filter (fun p => p.1 != k)

/-- `GenerateReport` (app.go:344-377) with the HTTP call
(`callPaloAltoAPI`) abstracted as the oracle `api` from the final
request path to the decoded payload: reject unconfigured credentials,
resolve the endpoint and reject the unknown report type, append the
date-range query only when both bounds are supplied, call the API, and
on success store the payload in the cache under the report type.
Returns the call result together with the updated cache. -/
def GenerateReport (apiURL : String) (apiKey : String)
    (api : String → Except String GoValue)
    (cache : List (String × GoValue))
    (reportType startDate endDate : String) :
    Except String GoValue × List (String × GoValue) :=
  if apiURL = "" ∨ apiKey = "" then
    (.error "API URL and Key must be configured first", cache)
  else
    let endpoint := getEndpointForReportType reportType
    if endpoint = "" then
      (.error ("unknown report type: " ++ reportType), cache)
    else
      let endpoint2 :=
        if startDate ≠ "" ∧ endDate ≠ "" then
          (if strContains endpoint "?" then endpoint ++ "&" else endpoint ++ "?")
            ++ "start-time=" ++ startDate ++ "&end-time=" ++ endDate
        else endpoint
      match api endpoint2 with
      | .error e => (.error e, cache)
      | .ok data => (.ok data, mapSet cache reportType data)

/-! ## Export artifact filenames (ExportToCSV / ExportToPDF, app.go:379-425) -/

/-- A wall-clock instant as used by `time.Now()`: calendar fields down
to the second, plus the sub-second nanoseconds that the Go timestamp
layout `"20060102_150405"` discards. -/
structure DateTime where
  year : Nat
  month : Nat
  day : Nat
  hour : Nat
  minute : Nat
  second : Nat
  nanos : Nat
deriving DecidableEq

/-- Zero-pad a number to two digits (Go layout components `01`..`05`). -/
def pad2 (n : Nat) : String := if n < 10 then "0" ++ toString n else toString n

/-- Zero-pad a number to four digits (Go layout component `2006`). -/
def pad4 (n : Nat) : String :=
  if n < 10 then "000" ++ toString n
  else if n < 100 then "00" ++ toString n
  else if n < 1000 then "0" ++ toString n
  else toString n

/-- `time.Now().Format("20060102_150405")` (app.go:390, 414):
second-resolution, the nanoseconds are dropped. -/
def formatCompactTimestamp (t : DateTime) : String :=
  pad4 t.year ++ pad2 t.month ++ pad2 t.day ++ "_"
    ++ pad2 t.hour ++ pad2 t.minute ++ pad2 t.second

/-- The artifact filename built by `ExportToCSV` (app.go:390-391). -/
def csvFilename (reportType : String) (t : DateTime) : String :=
  reportType ++ "_" ++ formatCompactTimestamp t ++ ".csv"

/-- The artifact filename built by `ExportToPDF` (app.go:414-415). -/
def pdfFilename (reportType : String) (t : DateTime) : String :=
  reportType ++ "_" ++ formatCompactTimestamp t ++ ".pdf"

/-- Two instants within the same clock second: all calendar fields down
to the second agree, only the sub-second part may differ. -/
def sameSecond (t1 t2 : DateTime) : Prop :=
  t1.year = t2.year ∧ t1.month = t2.month ∧ t1.day = t2.day ∧
  t1.hour = t2.hour ∧ t1.minute = t2.minute ∧ t1.second = t2.second

/-! ## Tabular export (generateCSV, app.go:637-811)

The function is modelled by the sequence of CSV records it writes; the
UTF-8 byte-order marker (app.go:653) is written unconditionally before
any record and is left implicit, and the `Generated` timestamp cell is
the parameter `now`. File and directory creation failures are I/O
effects outside the model. -/

/-- The key set of an entry used when collecting headers; a non-map
entry contributes nothing (the `if itemMap, ok := ...` guard). -/
def keysOf : GoValue → List String
  | .vmap kvs => kvs.map Prod.fst
  | _ => []

/-- The header-set collection of app.go:741-758: in `"complete"` mode
every entry's keys enter the set, otherwise only the first entry's; the
set is then enumerated in sorted order (Go builds `headerMap`, collects
its keys and sorts — modelled as sort-of-dedup). -/
def csvHeaders (reportFormat : String) (firstKvs : List (String × GoValue))
    (items : List GoValue) : List String :=
  let keys :=
    if reportFormat = "complete" then (items.map keysOf).flatten
    else firstKvs.map Prod.fst
  sortStrings keys.dedup

/-- One data row (app.go:780-795): each header cell carries the
formatted value when the entry has the field, and the empty string when
it does not. -/
def renderRow (headers : List String) (kvs : List (String × GoValue)) :
    List String :=
  headers.map (fun h =>
    match List.lookup h kvs with
    | some v => formatValueForCSV v
    | none => "")

/-- The row-emission loop of app.go:772-796: stop once `maxRows` rows
have been written when `maxRows` is positive; a map entry is rendered
and counted, any other entry is skipped without counting. Returns the
emitted rows and the final row count. -/
def rowsLoop (headers : List String) (maxRows : Int) :
    List GoValue → Nat → List (List String) × Nat
  | [], rowCount => ([], rowCount)
  | item :: rest, rowCount =>
    if maxRows > 0 ∧ (rowCount : Int) ≥ maxRows then ([], rowCount)
    else
      match item with
      | .vmap kvs =>
          let r := rowsLoop headers maxRows rest (rowCount + 1)
          (renderRow headers kvs :: r.1, r.2)
      | _ => rowsLoop headers maxRows rest rowCount

/-- The metadata block written before a sequence payload
(app.go:722-739): report banner, generation time, source tag, total
item count, blank separator. -/
def metaRowsSeq (now : String) (total : Nat) : List (List String) :=
  [["Report Information"], ["Generated", now], ["Source", "PAN_ENGINE"],
   ["Total Items", toString total], ["", ""]]

/-- The truncation note text of app.go:801. -/
def noteText (rowCount total : Nat) : String :=
  "Note: Output limited to " ++ toString rowCount ++ " of "
    ++ toString total ++ " rows"

/-- `generateCSV` (app.go:637-811) as the list of CSV records written:
a single mapping yields a metadata block, sorted headers and one value
row; an empty sequence yields the two-row no-data file; a sequence whose
first entry is a mapping yields the metadata block, the mode-dependent
sorted headers, the capped data rows, and — when rows were dropped — a
trailing note row `make([]string, len(headers))` whose first cell holds
the note (a construction that raises an index-out-of-range runtime
error when the header list is empty); a sequence whose first entry is
not a mapping writes nothing after the byte-order marker; any other
payload shape is rejected. -/
def generateCSV (reportFormat : String) (maxRows : Int) (now : String)
    (data : GoValue) : Except String (List (List String)) :=
  match data with
  | .vmap kvs =>
      let headers := sortStrings (kvs.map Prod.fst).dedup
      .ok ([["Report Information"], ["Generated", now],
            ["Source", "PAN_ENGINE"], ["", ""]]
        ++ [headers]
        ++ [headers.map (fun h => formatValueForCSV ((List.lookup h kvs).getD .vnull))])
  | .varr [] =>
      .ok [["No Data", "Generated At"], ["No data available", now]]
  | .varr (first :: rest) =>
      match first with
      | .vmap firstKvs =>
          let items := GoValue.vmap firstKvs :: rest
          let headers := csvHeaders reportFormat firstKvs items
          let r := rowsLoop headers maxRows items 0
          if r.2 < items.length then
            if headers = [] then .error "runtime error: index out of range"
            else .ok (metaRowsSeq now items.length ++ [headers] ++ r.1
              ++ [noteText r.2 items.length :: List.replicate (headers.length - 1) ""])
          else .ok (metaRowsSeq now items.length ++ [headers] ++ r.1)
      | _ => .ok []
  | _ => .error "unsupported data type for CSV export"

/-! ## Search/Filter Engine (FilterReportData, app.go:1064-1141) -/

/-- One entry matches the filter map (app.go:1099-1122): every filter
with a non-empty value must name a field the entry has, whose rendered
value contains the filter value case-insensitively. The Go filter map
is modelled as a pair list; map iteration order does not matter because
the conditions are conjoined. -/
def matchesFilters (kvs : List (String × GoValue))
    (filters : List (String × String)) : Bool :=
  filters.all (fun f =>
    f.2 = "" ||
      (match List.lookup f.1 kvs with
       | none => false
       | some v => strContains (toLowerStr (goFormat v)) (toLowerStr f.2)))

/-- The outcome record returned by `FilterReportData`
(app.go:1087-1091, 1130-1135). -/
structure FilterOutcome where
  result : GoValue
  count : Nat
  total : Nat
  filtered : Bool

/-- `FilterReportData` (app.go:1064-1141): look the report type up in
the cache (absence is a distinct error), normalise a single mapping to
a one-entry sequence, reject other shapes; with no filters return the
original data without touching the cache; otherwise keep the matching
map entries (non-map entries are dropped), store them in the cache
under `reportType ++ "_filtered"`, and return them with counts. -/
def FilterReportData (cache : List (String × GoValue)) (reportType : String)
    (filters : List (String × String)) :
    Except String FilterOutcome × List (String × GoValue) :=
  match List.lookup reportType cache with
  | none => (.error ("no data available for report type: " ++ reportType), cache)
  | some data =>
    let itemsE : Except String (List GoValue) :=
      match data with
      | .vmap kvs => .ok [GoValue.vmap kvs]
      | .varr vs => .ok vs
      | _ => .error "unsupported data format for filtering"
    match itemsE with
    | .error e => (.error e, cache)
    | .ok items =>
      if filters = [] then
        (.ok { result := data, count := items.length,
               total := items.length, filtered := false }, cache)
      else
        let filtered := items.filter (fun it =>
          match it with
          | .vmap kvs => matchesFilters kvs filters
          | _ => false)
        (.ok { result := .varr filtered, count := filtered.length,
               total := items.length, filtered := true },
         mapSet cache (reportType ++ "_filtered") (.varr filtered))

/-! ## Batch Orchestrator (BatchExportReports, app.go:878-964)

Each task runs `GenerateReport` and then the format-selected export;
both are I/O-performing calls abstracted as oracles. The goroutines
write disjoint keys of the result map under a mutex and the call joins
on all of them, so the aggregate outcome is the same as this sequential
fold; the 3-slot semaphore only bounds simultaneity. -/

/-- The per-report outcome recorded in the result map
(app.go:908-915, 931-945). -/
inductive BatchEntry where
  | success (path : String)
  | failure (msg : String)
deriving DecidableEq

/-- The oracles a batch task calls: the fetch (`GenerateReport` at the
configured credentials and date range) and the two exporters. -/
structure BatchEnv where
  generate : String → Except String GoValue
  exportCSV : String → Except String String
  exportPDF : String → Except String String

/-- One fetch/export task (the goroutine body, app.go:898-946): a fetch
failure is recorded with its message; otherwise the format-selected
export is run and its path or error recorded. -/
def runBatchTask (env : BatchEnv) (format reportType : String) : BatchEntry :=
  match env.generate reportType with
  | .error e => .failure e
  | .ok _ =>
    match (if format = "csv" then env.exportCSV reportType
           else env.exportPDF reportType) with
    | .error e => .failure e
    | .ok p => .success p

/-- The aggregate returned by `BatchExportReports`: the per-type
outcome map and the `_summary` fields (app.go:952-962; the echoed date
range and timestamp are pass-through strings and omitted). -/
structure BatchResult where
  entries : List (String × BatchEntry)
  total : Nat
  successful : Nat
  failed : Nat
  format : String

/-- An outcome entry counted by `successCount` (app.go:943). -/
def isSuccessEntry (e : String × BatchEntry) : Bool :=
  match e.2 with | .success _ => true | .failure _ => false

/-- An outcome entry counted by `errorCount` (app.go:913, 937). -/
def isFailureEntry (e : String × BatchEntry) : Bool :=
  match e.2 with | .success _ => false | .failure _ => true

/-- `BatchExportReports` (app.go:878-964): an empty report-type list
and a format outside the closed set csv/pdf are whole-batch errors
checked before any work; otherwise every report type is dispatched,
each records exactly one outcome entry, and the summary counts
successes and failures. -/
def BatchExportReports (env : BatchEnv) (reportTypes : List String)
    (format : String) : Except String BatchResult :=
  if reportTypes = [] then .error "no report types specified"
  else if format ≠ "csv" ∧ format ≠ "pdf" then
    .error "invalid format: must be csv or pdf"
  else
    let entries := reportTypes.map (fun rt => (rt, runBatchTask env format rt))
    .ok { entries := entries,
          total := reportTypes.length,
          successful := (entries.filter isSuccessEntry).length,
          failed := (entries.filter isFailureEntry).length,
          format := format }

/-! ## Concrete instances used by witnesses and counterexamples -/

/-- A stored settings record whose encrypted key decodes to a single
byte — shorter than the 12-byte GCM nonce. -/
def c2BadSettings : Settings :=
  { apiURL := "https://fw", encryptedKey := [0], maxRows := 0, reportFormat := "" }

/-- A batch environment in which fetching succeeds only for report
type `a`. -/
def c3Env : BatchEnv :=
  { generate := fun rt => if rt = "a" then .ok .vnull else .error "boom",
    exportCSV := fun rt => .ok ("Reports/" ++ rt ++ ".csv"),
    exportPDF := fun rt => .ok ("Reports/" ++ rt ++ ".pdf") }

/-- The batch outcome of `c3Env` on report types `a`, `b` in csv
format. -/
def c3Result : BatchResult :=
  { entries := [("a", .success "Reports/a.csv"), ("b", .failure "boom")],
    total := 2, successful := 1, failed := 1, format := "csv" }

/-- First entry of a heterogeneous 2-row sequence: it lacks the `zone`
field that the second entry carries, so the standard and complete
header sets differ. -/
def c4First : List (String × GoValue) := [("name", .vstr "r1")]

/-- Remaining entries of the heterogeneous sequence. -/
def c4Rest : List (List (String × GoValue)) :=
  [[("name", .vstr "r2"), ("zone", .vstr "dmz")]]

/-- First entry of the 5-entry truncation example of spec §8. -/
def c5First : List (String × GoValue) := [("a", .vstr "1")]

/-- Remaining entries of the 5-entry truncation example. -/
def c5Rest : List (List (String × GoValue)) :=
  [[("a", .vstr "2")], [("a", .vstr "3")], [("a", .vstr "4")], [("a", .vstr "5")]]

/-- First fetched payload for the staleness scenario. -/
def c8Payload1 : GoValue := .varr [.vmap [("name", .vstr "allow_http")]]

/-- Refreshed payload for the staleness scenario. -/
def c8Payload2 : GoValue := .varr [.vmap [("name", .vstr "deny_all")]]

/-- Cache after fetching `traffic` (payload `c8Payload1`). -/
def c8CacheAfterFetch : List (String × GoValue) :=
  (GenerateReport "https://fw" "key1" (fun _ => .ok c8Payload1) [] "traffic" "" "").2

/-- Cache after deriving the filtered view of `traffic`. -/
def c8CacheAfterFilter : List (String × GoValue) :=
  (FilterReportData c8CacheAfterFetch "traffic" [("name", "http")]).2

/-- Cache after the parent payload is refreshed to `c8Payload2`. -/
def c8CacheAfterRefetch : List (String × GoValue) :=
  (GenerateReport "https://fw" "key1" (fun _ => .ok c8Payload2) c8CacheAfterFilter "traffic" "" "").2

/-! ## General lemmas on association-list lookup and the cache -/

/-- Lookup in an association list with distinct keys returns the stored
value of any member pair. -/
theorem lookup_of_mem_nodup {β : Type} (l : List (String × β)) (k : String)
    (v : β) (hnd : (l.map Prod.fst).Nodup) (hmem : (k, v) ∈ l) :
    List.lookup k l = some v := by
  induction l with
  | nil => cases hmem
  | cons p t ih =>
    obtain ⟨p1, p2⟩ := p
    rcases List.mem_cons.mp hmem with h | h
    · obtain ⟨h1, h2⟩ := Prod.mk.injEq .. ▸ h.symm
      simp [List.lookup, h1.symm, h2]
    · have hk : (k == p1) = false := by
        have hnotin := (List.nodup_cons.mp hnd).1
        have : k ∈ t.map Prod.fst := List.mem_map_of_mem Prod.fst h
        simp only [beq_eq_false_iff_ne, ne_eq]
        intro he
        exact hnotin (he ▸ this)
      simp only [List.lookup, hk]
      exact ih (List.nodup_cons.mp hnd).2 h

/-- Lookup of a key absent from an association list fails. -/
theorem lookup_of_not_mem {β : Type} (l : List (String × β)) (k : String)
    (h : k ∉ l.map Prod.fst) : List.lookup k l = none := by
  induction l with
  | nil => rfl
  | cons p t ih =>
    obtain ⟨p1, p2⟩ := p
    have hk : (k == p1) = false := by
      simp only [beq_eq_false_iff_ne, ne_eq]
      intro he
      exact h (by simp [he])
    simp only [List.lookup, hk]
    exact ih (fun hm => h (by simp [List.mem_map] at hm ⊢; tauto))

/-- Removing the pairs at one key does not change lookup at another. -/
theorem lookup_filter_ne (c : List (String × GoValue)) (k k2 : String)
    (h : k2 ≠ k) :
    List.lookup k2 (c.filter (fun p => p.1 != k)) = List.lookup k2 c := by
  induction c with
  | nil => rfl
  | cons p t ih =>
    obtain ⟨p1, p2⟩ := p
    by_cases hp : p1 = k
    · have hk2 : (k2 == p1) = false := by
        simp only [beq_eq_false_iff_ne, ne_eq]
        exact fun he => h (he.trans hp)
      have hbk : (k2 == k) = false := by simp [h]
      simp [List.filter_cons, hp, List.lookup, hk2, hbk, ih]
    · by_cases hk2 : k2 = p1
      · simp [List.filter_cons, hp, List.lookup, hk2]
      · have hb : (k2 == p1) = false := by simp [hk2]
        simp [List.filter_cons, hp, List.lookup, hb, ih]

/-- Overwriting one cache key does not change lookup at another. -/
theorem lookup_mapSet_ne (c : List (String × GoValue)) (k k2 : String)
    (v : GoValue) (h : k2 ≠ k) :
    List.lookup k2 (mapSet c k v) = List.lookup k2 c := by
  have hb : (k2 == k) = false := by simp [h]
  simp only [mapSet, List.lookup, hb]
  exact lookup_filter_ne c k k2 h

/-- Appending a non-empty suffix changes a string. -/
theorem append_filtered_ne (s : String) : s ++ "_filtered" ≠ s := by
  intro h
  have hl := congrArg String.length h
  rw [String.length_append] at hl
  have h9 : "_filtered".length = 9 := rfl
  omega

/-! ## Claim theorems -/

/-- C7, counterexample: two distinct instants inside the same clock
second produce the same `ExportToCSV` artifact filename — the code
appends no disambiguator, so the claim that the two filenames differ is
false at this input. -/
theorem c7_filename_collision_counterexample :
    sameSecond ⟨2024, 1, 2, 3, 4, 5, 0⟩ ⟨2024, 1, 2, 3, 4, 5, 999999⟩
    ∧ (⟨2024, 1, 2, 3, 4, 5, 0⟩ : DateTime) ≠ ⟨2024, 1, 2, 3, 4, 5, 999999⟩
    ∧ csvFilename "traffic" ⟨2024, 1, 2, 3, 4, 5, 0⟩
        = csvFilename "traffic" ⟨2024, 1, 2, 3, 4, 5, 999999⟩ :=
  ⟨⟨rfl, rfl, rfl, rfl, rfl, rfl⟩, by decide, rfl⟩

/-- C7, amended: the artifact filename depends on the clock only
through the second-resolution layout `20060102_150405`, so any two
exports of the same report type within the same clock second produce
identical filenames (they collide; no disambiguator exists), in both
the tabular and document formats. -/
theorem c7_filenames_collide_within_second (rt : String) (t1 t2 : DateTime)
    (h : sameSecond t1 t2) :
    csvFilename rt t1 = csvFilename rt t2
    ∧ pdfFilename rt t1 = pdfFilename rt t2 := by
  obtain ⟨h1, h2, h3, h4, h5, h6⟩ := h
  unfold csvFilename pdfFilename formatCompactTimestamp
  rw [h1, h2, h3, h4, h5, h6]
  exact ⟨rfl, rfl⟩

/-- C7 witness: the amended collision theorem at a concrete pair of
instants one microsecond apart. -/
theorem c7_filenames_collide_within_second_witness :
    csvFilename "traffic" ⟨2024, 1, 2, 3, 4, 5, 1000⟩
      = csvFilename "traffic" ⟨2024, 1, 2, 3, 4, 5, 2000⟩ :=
  (c7_filenames_collide_within_second "traffic" _ _
    ⟨rfl, rfl, rfl, rfl, rfl, rfl⟩).1

/-- C8, counterexample: the reachable cache state after fetch → filter
→ refetch holds the refreshed parent payload together with the
filtered view derived from the old payload; re-filtering the new
payload would give a different (empty) view, so a stale `FilteredView`
coexists with a newer parent — the claimed invalidation does not
happen. -/
theorem c8_stale_filtered_view_counterexample :
    List.lookup "traffic" c8CacheAfterRefetch = some c8Payload2
    ∧ List.lookup "traffic_filtered" c8CacheAfterRefetch
        = some (.varr [.vmap [("name", .vstr "allow_http")]])
    ∧ (FilterReportData c8CacheAfterRefetch "traffic" [("name", "http")]).1
        = .ok { result := .varr [], count := 0, total := 1, filtered := true } :=
  ⟨rfl, rfl, rfl⟩

/-- C8, amended: refreshing the `ReportPayload` of a report type via
`GenerateReport` never touches the derived cache entry
`reportType ++ "_filtered"` — no invalidation occurs, so a
`FilteredView` derived from an older payload survives a refresh of its
parent unchanged. -/
theorem c8_generateReport_keeps_filtered_entry (url key : String)
    (api : String → Except String GoValue) (cache : List (String × GoValue))
    (rt startDate endDate : String) :
    List.lookup (rt ++ "_filtered")
        ((GenerateReport url key api cache rt startDate endDate).2)
      = List.lookup (rt ++ "_filtered") cache := by
  unfold GenerateReport
  dsimp only
  repeat' split
  all_goals
    first
      | rfl
      | exact lookup_mapSet_ne cache rt (rt ++ "_filtered") _ (append_filtered_ne rt)

/-- C10: a sequence payload whose first element is not a mapping makes
`generateCSV` return success with no records written at all (the file
holds only the byte-order marker), while a payload that is neither a
mapping nor a sequence is rejected with the explicit unsupported-shape
error. -/
theorem c10_nonmap_first_silent_empty (first : GoValue) (rest : List GoValue)
    (fmt : String) (mr : Int) (now : String) (d : GoValue)
    (hfirst : ∀ kvs, first ≠ .vmap kvs)
    (hd1 : ∀ kvs, d ≠ .vmap kvs) (hd2 : ∀ vs, d ≠ .varr vs) :
    generateCSV fmt mr now (.varr (first :: rest)) = .ok []
    ∧ generateCSV fmt mr now d = .error "unsupported data type for CSV export" := by
  constructor
  · cases first with
    | vmap kvs => exact absurd rfl (hfirst kvs)
    | varr vs => rfl
    | vstr s => rfl
    | vnum n => rfl
    | vbool b => rfl
    | vnull => rfl
  · cases d with
    | vmap kvs => exact absurd rfl (hd1 kvs)
    | varr vs => exact absurd rfl (hd2 vs)
    | vstr s => rfl
    | vnum n => rfl
    | vbool b => rfl
    | vnull => rfl

/-- C10 witness: the silent empty file for a string-first sequence and
the explicit error for a bare string payload. -/
theorem c10_nonmap_first_silent_empty_witness :
    generateCSV "standard" 1000 "t" (.varr [.vstr "x"]) = .ok []
    ∧ generateCSV "standard" 1000 "t" (.vstr "y")
        = .error "unsupported data type for CSV export" :=
  c10_nonmap_first_silent_empty (.vstr "x") [] "standard" 1000 "t" (.vstr "y")
    (fun _ h => nomatch h) (fun _ h => nomatch h) (fun _ h => nomatch h)

/-- C6: every report type registered in the endpoint table resolves to
exactly its registered path, and no registered path is empty; any
string outside the registry resolves to the Go zero value, which
`GenerateReport` rejects with the explicit unknown-report-type error
rather than proceeding with an empty path (configured credentials are
assumed so that the resolution check is the one that fires). -/
theorem c6_endpoint_resolution :
    (∀ rt path, (rt, path) ∈ endpoints →
        getEndpointForReportType rt = path ∧ path ≠ "")
    ∧ ∀ rt, rt ∉ endpoints.map Prod.fst →
        getEndpointForReportType rt = ""
        ∧ ∀ url key api cache startDate endDate, url ≠ "" → key ≠ "" →
            (GenerateReport url key api cache rt startDate endDate).1
              = .error ("unknown report type: " ++ rt) := by
  constructor
  · intro rt path hmem
    refine ⟨?_, ?_⟩
    · unfold getEndpointForReportType
      rw [lookup_of_mem_nodup endpoints rt path (by decide) hmem]
      rfl
    · have hall : ∀ p ∈ endpoints, p.2 ≠ "" := by decide
      exact hall (rt, path) hmem
  · intro rt hnot
    have hres : getEndpointForReportType rt = "" := by
      unfold getEndpointForReportType
      rw [lookup_of_not_mem endpoints rt hnot]
      rfl
    refine ⟨hres, ?_⟩
    intro url key api cache startDate endDate hurl hkey
    unfold GenerateReport
    rw [if_neg (by simp [hurl, hkey])]
    simp [hres]

/-- C6 witness: the concrete registered pair for `traffic` resolves to
its path, and the unregistered string `bogus` makes `GenerateReport`
fail with the unknown-report-type error. -/
theorem c6_endpoint_resolution_witness :
    getEndpointForReportType "traffic" = "/restapi/v11.0/Objects/TrafficLogs"
    ∧ (GenerateReport "https://fw" "key1" (fun _ => .ok .vnull) [] "bogus" "" "").1
        = .error ("unknown report type: " ++ "bogus") :=
  ⟨(c6_endpoint_resolution.1 "traffic" "/restapi/v11.0/Objects/TrafficLogs"
      (by decide)).1,
   (c6_endpoint_resolution.2 "bogus" (by decide)).2 "https://fw" "key1"
      (fun _ => .ok .vnull) [] "" "" (by decide) (by decide)⟩

/-- Every outcome entry is counted exactly once: successes and
failures of any entry list sum to its length. -/
theorem batch_counts_sum (l : List (String × BatchEntry)) :
    (l.filter isSuccessEntry).length + (l.filter isFailureEntry).length
      = l.length := by
  induction l with
  | nil => rfl
  | cons a t ih =>
    obtain ⟨rt, e⟩ := a
    cases e with
    | success p =>
        simp [List.filter_cons, isSuccessEntry, isFailureEntry]
        omega
    | failure m =>
        simp [List.filter_cons, isSuccessEntry, isFailureEntry]
        omega

/-- C3: `BatchExportReports` fails at call level exactly when the
report-type list is empty or the format is outside the closed csv/pdf
set; any successful call — whatever the fetch and export oracles do —
returns a summary whose total is the number of requested types and
whose successful and failed counts sum to that total, with one recorded
outcome entry (a success-with-path or failure-with-message
`BatchEntry`) for every requested report type. -/
theorem c3_batch_contract (env : BatchEnv) (reportTypes : List String)
    (format : String) :
    ((BatchExportReports env reportTypes format).isOk = true
       ↔ (reportTypes ≠ [] ∧ (format = "csv" ∨ format = "pdf")))
    ∧ ∀ res, BatchExportReports env reportTypes format = .ok res →
        res.total = reportTypes.length
        ∧ res.successful + res.failed = res.total
        ∧ res.format = format
        ∧ ∀ rt ∈ reportTypes, (rt, runBatchTask env format rt) ∈ res.entries := by
  constructor
  · unfold BatchExportReports
    by_cases h1 : reportTypes = []
    · simp [h1, Except.isOk, Except.toBool]
    · by_cases h2 : format ≠ "csv" ∧ format ≠ "pdf"
      · rw [if_neg h1, if_pos h2]
        simp only [Except.isOk, Except.toBool, Bool.false_eq_true, false_iff]
        tauto
      · rw [if_neg h1, if_neg h2]
        simp only [Except.isOk, Except.toBool, true_iff]
        exact ⟨h1, by tauto⟩
  · intro res hres
    unfold BatchExportReports at hres
    by_cases h1 : reportTypes = []
    · rw [if_pos h1] at hres
      cases hres
    · by_cases h2 : format ≠ "csv" ∧ format ≠ "pdf"
      · rw [if_neg h1, if_pos h2] at hres
        cases hres
      · rw [if_neg h1, if_neg h2] at hres
        have hres2 := (Except.ok.injEq ..).mp hres
        subst hres2
        refine ⟨rfl, ?_, rfl, ?_⟩
        · have hm := batch_counts_sum
            (List.map (fun rt => (rt, runBatchTask env format rt)) reportTypes)
          simpa [List.length_map] using hm
        · intro rt hrt
          exact List.mem_map_of_mem (fun rt => (rt, runBatchTask env format rt)) hrt

/-- C3 witness: the contract applied to a concrete environment where
fetching succeeds for `a` and fails for `b`: the call succeeds and the
recorded outcomes and counts match. -/
theorem c3_batch_contract_witness :
    (BatchExportReports c3Env ["a", "b"] "csv").isOk = true
    ∧ c3Result.successful + c3Result.failed = c3Result.total
    ∧ ("a", runBatchTask c3Env "csv" "a") ∈ c3Result.entries
    ∧ ("b", runBatchTask c3Env "csv" "b") ∈ c3Result.entries :=
  ⟨(c3_batch_contract c3Env ["a", "b"] "csv").1.mpr
      ⟨by decide, Or.inl rfl⟩,
   ((c3_batch_contract c3Env ["a", "b"] "csv").2 c3Result rfl).2.1,
   ((c3_batch_contract c3Env ["a", "b"] "csv").2 c3Result rfl).2.2.2 "a"
      (by decide),
   ((c3_batch_contract c3Env ["a", "b"] "csv").2 c3Result rfl).2.2.2 "b"
      (by decide)⟩

/-- C2, counterexample: a stored settings record whose non-empty
encrypted key decodes to a single byte — shorter than the 12-byte GCM
nonce, so decryption fails with the truncated-ciphertext error — still
makes `loadSettings` complete successfully, leaving the in-memory API
key at its empty default; the claimed explicit load error never
reaches the caller. -/
theorem c2_load_swallows_crypto_error_counterexample :
    c2BadSettings.encryptedKey ≠ []
    ∧ decryptAPIKey c2BadSettings.encryptedKey = .error "ciphertext too short"
    ∧ (loadSettings newApp c2BadSettings).2 = .ok ()
    ∧ (loadSettings newApp c2BadSettings).1.apiKey = [] :=
  ⟨by decide, rfl, rfl, rfl⟩

/-- C2, amended: when the stored encrypted key is non-empty and its
decryption fails (ciphertext shorter than the nonce, or failed
authentication), `loadSettings` discards the error, completes
successfully, and leaves the in-memory API key unchanged — for a fresh
app this means silently keeping the empty key. -/
theorem c2_load_ignores_decrypt_failure (a : AppState) (s : Settings)
    (msg : String) (hne : s.encryptedKey ≠ [])
    (herr : decryptAPIKey s.encryptedKey = .error msg) :
    (loadSettings a s).2 = .ok ()
    ∧ (loadSettings a s).1.apiKey = a.apiKey := by
  unfold loadSettings
  simp only [hne, herr]
  refine ⟨trivial, ?_⟩
  dsimp only
  split <;> split <;> rfl

/-- C2 witness: the amended theorem at the concrete truncated
settings record and the fresh app state. -/
theorem c2_load_ignores_decrypt_failure_witness :
    (loadSettings newApp c2BadSettings).2 = .ok ()
    ∧ (loadSettings newApp c2BadSettings).1.apiKey = newApp.apiKey :=
  c2_load_ignores_decrypt_failure newApp c2BadSettings "ciphertext too short"
    (by decide) rfl

/-- The `match` of `renderRow` written via `Option.getD`: a present
field renders its formatted value, a missing field the empty string. -/
theorem renderRow_eq_getD (H : List String) (kvs : List (String × GoValue)) :
    renderRow H kvs
      = H.map (fun h => ((List.lookup h kvs).map formatValueForCSV).getD "") := by
  unfold renderRow
  congr 1
  funext h
  cases List.lookup h kvs <;> rfl

/-- With no effective cap, the row loop renders every mapping entry in
original order and counts them all. -/
theorem rowsLoop_no_cap (H : List String) (mr : Int)
    (ms : List (List (String × GoValue))) (c : Nat)
    (hc : mr ≤ 0 ∨ (c : Int) + ms.length ≤ mr) :
    rowsLoop H mr (ms.map GoValue.vmap) c
      = (ms.map (renderRow H), c + ms.length) := by
  induction ms generalizing c with
  | nil => simp [rowsLoop]
  | cons kvs t ih =>
    have hcond : ¬(mr > 0 ∧ (c : Int) ≥ mr) := by
      rcases hc with h | h
      · omega
      · simp only [List.length_cons] at h
        push_cast at h
        omega
    rw [List.map_cons]
    simp only [rowsLoop, if_neg hcond]
    rw [ih (c + 1) (by
      rcases hc with h | h
      · exact Or.inl h
      · right
        simp only [List.length_cons] at h
        push_cast at h ⊢
        omega)]
    simp only [List.map_cons, List.length_cons, Prod.mk.injEq]
    refine ⟨trivial, by omega⟩

/-- With a positive cap and remaining quota within the list, the row
loop renders exactly the quota-prefix of the mapping entries and stops
with the cap as its final count. -/
theorem rowsLoop_cap (H : List String) (mr : Int)
    (ms : List (List (String × GoValue))) (c : Nat)
    (hmr : mr > 0) (hc : c ≤ mr.toNat) (hlen : mr.toNat - c ≤ ms.length) :
    rowsLoop H mr (ms.map GoValue.vmap) c
      = ((ms.take (mr.toNat - c)).map (renderRow H), mr.toNat) := by
  induction ms generalizing c with
  | nil =>
    have hc0 : c = mr.toNat := by
      simp only [List.length_nil, Nat.le_zero] at hlen
      omega
    simp [rowsLoop, hc0]
  | cons kvs t ih =>
    by_cases hstop : (c : Int) ≥ mr
    · have h0 : mr.toNat - c = 0 := by omega
      have hceq : c = mr.toNat := by omega
      rw [List.map_cons]
      simp only [rowsLoop, if_pos (And.intro hmr hstop), h0, List.take_zero,
        List.map_nil]
      exact Prod.mk.injEq .. ▸ ⟨rfl, hceq⟩
    · have hq : mr.toNat - c = (mr.toNat - (c + 1)) + 1 := by omega
      have hcond : ¬(mr > 0 ∧ (c : Int) ≥ mr) := by
        intro hand
        exact hstop hand.2
      rw [List.map_cons]
      simp only [rowsLoop, if_neg hcond]
      rw [ih (c + 1) (by omega) (by
        simp only [List.length_cons] at hlen
        omega)]
      rw [hq, List.take_succ_cons, List.map_cons]

/-- C4: for a sequence payload of mapping entries (with the cap not in
effect), tabular export succeeds and emits the metadata block, one
header row, and one data row per entry in original order, where each
cell holds the formatted field value or the empty string when the
entry lacks the field; the header row is sorted lexicographically,
duplicate-free, and its members are exactly the union of all entries'
fields in `"complete"` mode and exactly the first entry's fields in
any other mode (in particular `"standard"`). -/
theorem c4_generateCSV_header_modes (firstKvs : List (String × GoValue))
    (restKvs : List (List (String × GoValue))) (mode : String) (mr : Int)
    (now : String)
    (hcap : mr ≤ 0 ∨ (((firstKvs :: restKvs).length : Int)) ≤ mr) :
    generateCSV mode mr now (.varr ((firstKvs :: restKvs).map GoValue.vmap))
      = .ok (metaRowsSeq now (firstKvs :: restKvs).length
          ++ [csvHeaders mode firstKvs ((firstKvs :: restKvs).map GoValue.vmap)]
          ++ (firstKvs :: restKvs).map (fun kvs =>
               (csvHeaders mode firstKvs ((firstKvs :: restKvs).map GoValue.vmap)).map
                 (fun h => ((List.lookup h kvs).map formatValueForCSV).getD "")))
    ∧ List.Sorted (fun a b : String => a ≤ b)
        (csvHeaders mode firstKvs ((firstKvs :: restKvs).map GoValue.vmap))
    ∧ (csvHeaders mode firstKvs ((firstKvs :: restKvs).map GoValue.vmap)).Nodup
    ∧ ∀ h, h ∈ csvHeaders mode firstKvs ((firstKvs :: restKvs).map GoValue.vmap)
        ↔ (if mode = "complete"
           then ∃ kvs, kvs ∈ firstKvs :: restKvs ∧ h ∈ kvs.map Prod.fst
           else h ∈ firstKvs.map Prod.fst) := by
  refine ⟨?_, ?_, ?_, ?_⟩
  · have hloop := rowsLoop_no_cap
      (csvHeaders mode firstKvs ((firstKvs :: restKvs).map GoValue.vmap))
      mr (firstKvs :: restKvs) 0
      (by rcases hcap with h | h
          · exact Or.inl h
          · right
            push_cast at h ⊢
            omega)
    simp only [List.map_cons] at hloop ⊢
    simp only [generateCSV]
    rw [hloop]
    rw [if_neg (by simp)]
    simp only [List.length_cons, List.length_map, List.map_cons, Nat.zero_add]
    rw [renderRow_eq_getD,
      List.map_congr_left (fun kvs _ => renderRow_eq_getD _ kvs)]
  · exact sortStrings_sorted _
  · exact (sortStrings_perm _).nodup_iff.mpr (List.nodup_dedup _)
  · intro h
    unfold csvHeaders
    by_cases hm : mode = "complete"
    · simp only [hm, if_pos rfl, if_true]
      rw [(sortStrings_perm _).mem_iff, List.mem_dedup, List.map_map,
        List.mem_flatten]
      constructor
      · rintro ⟨s, hs, hhs⟩
        rw [List.mem_map] at hs
        obtain ⟨kvs, hkvs, rfl⟩ := hs
        exact ⟨kvs, hkvs, hhs⟩
      · rintro ⟨kvs, hkvs, hh⟩
        exact ⟨(keysOf ∘ GoValue.vmap) kvs, List.mem_map_of_mem _ hkvs, hh⟩
    · simp only [if_neg hm]
      rw [(sortStrings_perm _).mem_iff, List.mem_dedup]

/-- C4 witness: the header-mode theorem at the concrete heterogeneous
2-row sequence, in standard and in complete mode. -/
theorem c4_generateCSV_header_modes_witness :
    generateCSV "standard" 1000 "t" (.varr ((c4First :: c4Rest).map GoValue.vmap))
      = .ok (metaRowsSeq "t" (c4First :: c4Rest).length
          ++ [csvHeaders "standard" c4First ((c4First :: c4Rest).map GoValue.vmap)]
          ++ (c4First :: c4Rest).map (fun kvs =>
               (csvHeaders "standard" c4First ((c4First :: c4Rest).map GoValue.vmap)).map
                 (fun h => ((List.lookup h kvs).map formatValueForCSV).getD "")))
    ∧ generateCSV "complete" 1000 "t" (.varr ((c4First :: c4Rest).map GoValue.vmap))
      = .ok (metaRowsSeq "t" (c4First :: c4Rest).length
          ++ [csvHeaders "complete" c4First ((c4First :: c4Rest).map GoValue.vmap)]
          ++ (c4First :: c4Rest).map (fun kvs =>
               (csvHeaders "complete" c4First ((c4First :: c4Rest).map GoValue.vmap)).map
                 (fun h => ((List.lookup h kvs).map formatValueForCSV).getD "")))
    ∧ csvHeaders "standard" c4First ((c4First :: c4Rest).map GoValue.vmap) = ["name"]
    ∧ csvHeaders "complete" c4First ((c4First :: c4Rest).map GoValue.vmap)
        = ["name", "zone"] :=
  ⟨(c4_generateCSV_header_modes c4First c4Rest "standard" 1000 "t" (by decide)).1,
   (c4_generateCSV_header_modes c4First c4Rest "complete" 1000 "t" (by decide)).1,
   by rfl, by rfl⟩

/-- C5, counterexample: a 5-entry sequence of mapping entries with
positive `maxRows = 2` on which tabular export does NOT produce 2 data
rows plus a note — the entries are all empty mappings, so the header
list is empty and the note-row construction
(`noteRow := make([]string, len(headers)); noteRow[0] = ...`,
app.go:800-801) indexes an empty slice: a runtime error instead of the
claimed note row. -/
theorem c5_truncation_counterexample :
    ((2 : Int) > 0)
    ∧ (2 : Int).toNat < (List.replicate 5 (GoValue.vmap [])).length
    ∧ generateCSV "standard" 2 "t" (.varr (List.replicate 5 (GoValue.vmap [])))
        = .error "runtime error: index out of range" :=
  ⟨by decide, by decide, rfl⟩

/-- C5, amended: for a sequence of mapping entries longer than a
positive `maxRows`, and whose computed header list is non-empty (some
entry contributes a field — otherwise the note-row construction
raises a runtime index error), tabular export emits exactly `maxRows`
data rows in original sequence order followed by one note row stating
how many of how many rows were included; sequences no longer than
`maxRows` get no note row (covered by the no-cap theorem for C4). -/
theorem c5_truncation_note (firstKvs : List (String × GoValue))
    (restKvs : List (List (String × GoValue))) (fmt : String) (mr : Int)
    (now : String) (hmr : mr > 0)
    (hlen : mr.toNat < (firstKvs :: restKvs).length)
    (hH : csvHeaders fmt firstKvs ((firstKvs :: restKvs).map GoValue.vmap) ≠ []) :
    generateCSV fmt mr now (.varr ((firstKvs :: restKvs).map GoValue.vmap))
      = .ok (metaRowsSeq now (firstKvs :: restKvs).length
          ++ [csvHeaders fmt firstKvs ((firstKvs :: restKvs).map GoValue.vmap)]
          ++ ((firstKvs :: restKvs).take mr.toNat).map
              (renderRow (csvHeaders fmt firstKvs ((firstKvs :: restKvs).map GoValue.vmap)))
          ++ [noteText mr.toNat (firstKvs :: restKvs).length
              :: List.replicate
                  ((csvHeaders fmt firstKvs ((firstKvs :: restKvs).map GoValue.vmap)).length - 1)
                  ""])
    ∧ (((firstKvs :: restKvs).take mr.toNat).map
        (renderRow (csvHeaders fmt firstKvs ((firstKvs :: restKvs).map GoValue.vmap)))).length
      = mr.toNat := by
  have hloop := rowsLoop_cap
    (csvHeaders fmt firstKvs ((firstKvs :: restKvs).map GoValue.vmap))
    mr (firstKvs :: restKvs) 0 hmr (Nat.zero_le _)
    (by omega)
  simp only [Nat.sub_zero] at hloop
  constructor
  · simp only [List.map_cons] at hloop hH ⊢
    simp only [generateCSV]
    rw [hloop]
    dsimp only
    rw [if_pos (by simpa using hlen), if_neg hH]
    simp only [List.length_cons, List.length_map]
  · simp only [List.length_map, List.length_take]
    omega

/-- C5 witness: the amended theorem at the 5-entry single-field
sequence of spec §8 with `maxRows = 2`: exactly 2 data rows and the
note stating 2 of 5. -/
theorem c5_truncation_note_witness :
    generateCSV "standard" 2 "t" (.varr ((c5First :: c5Rest).map GoValue.vmap))
      = .ok (metaRowsSeq "t" (c5First :: c5Rest).length
          ++ [csvHeaders "standard" c5First ((c5First :: c5Rest).map GoValue.vmap)]
          ++ ((c5First :: c5Rest).take (2 : Int).toNat).map
              (renderRow (csvHeaders "standard" c5First ((c5First :: c5Rest).map GoValue.vmap)))
          ++ [noteText (2 : Int).toNat (c5First :: c5Rest).length
              :: List.replicate
                  ((csvHeaders "standard" c5First ((c5First :: c5Rest).map GoValue.vmap)).length - 1)
                  ""])
    ∧ (((c5First :: c5Rest).take (2 : Int).toNat).map
        (renderRow (csvHeaders "standard" c5First ((c5First :: c5Rest).map GoValue.vmap)))).length
      = (2 : Int).toNat
    ∧ noteText (2 : Int).toNat (c5First :: c5Rest).length
        = "Note: Output limited to 2 of 5 rows" :=
  ⟨(c5_truncation_note c5First c5Rest "standard" 2 "t" (by decide) (by decide)
      (by decide)).1,
   (c5_truncation_note c5First c5Rest "standard" 2 "t" (by decide) (by decide)
      (by decide)).2,
   rfl⟩

/-! ## Lemmas for the Credential Vault round-trip and tamper claims -/

/-- The XOR fold distributes over append. -/
theorem xorAll_append (l1 l2 : List Nat) :
    xorAll (l1 ++ l2) = xorAll l1 ^^^ xorAll l2 := by
  induction l1 with
  | nil => simp [xorAll, Nat.zero_xor]
  | cons b t ih => simp [xorAll, ih, Nat.xor_assoc]

/-- Exchange the two right operands of a double XOR. -/
theorem xor_swap_right (x m b : Nat) : (x ^^^ m) ^^^ b = (x ^^^ b) ^^^ m := by
  rw [Nat.xor_assoc, Nat.xor_comm m b, ← Nat.xor_assoc]

/-- XOR with a non-zero mask changes the value. -/
theorem xor_ne_self (a m : Nat) (hm : m ≠ 0) : a ^^^ m ≠ a := by
  intro h
  have hme : m = a ^^^ (a ^^^ m) := by
    rw [← Nat.xor_assoc, Nat.xor_self, Nat.zero_xor]
  rw [h, Nat.xor_self] at hme
  exact hm hme

/-- XOR-shifting one element shifts the XOR fold by the same mask. -/
theorem xorAll_set (l : List Nat) (j m : Nat) (h : j < l.length) :
    xorAll (l.set j (l.getD j 0 ^^^ m)) = xorAll l ^^^ m := by
  induction l generalizing j with
  | nil => simp at h
  | cons b t ih =>
    cases j with
    | zero =>
      show (b ^^^ m) ^^^ xorAll t = (b ^^^ xorAll t) ^^^ m
      exact xor_swap_right b m (xorAll t)
    | succ j =>
      have hj : j < t.length := by simpa using h
      show b ^^^ xorAll (t.set j (t.getD j 0 ^^^ m)) = (b ^^^ xorAll t) ^^^ m
      rw [ih j hj, ← Nat.xor_assoc]

/-- XOR-shifting one element by a non-zero mask changes the list. -/
theorem set_xor_ne (l : List Nat) (j m : Nat) (h : j < l.length) (hm : m ≠ 0) :
    l.set j (l.getD j 0 ^^^ m) ≠ l := by
  intro he
  have hget : (l.set j (l.getD j 0 ^^^ m)).getD j 0 = l.getD j 0 ^^^ m := by
    simp [List.getD_eq_getElem?_getD, List.getElem?_set_self, h]
  rw [he] at hget
  exact xor_ne_self _ m hm hget.symm

/-- The keystream XOR preserves length. -/
theorem xorStream_length (key nonce : List Nat) :
    ∀ (i : Nat) (l : List Nat), (xorStream key nonce i l).length = l.length
  | _, [] => rfl
  | i, b :: bs => by
    simp only [xorStream, List.length_cons]
    rw [xorStream_length key nonce (i + 1) bs]

/-- The keystream XOR is an involution at every offset. -/
theorem xorStream_invol (key nonce : List Nat) :
    ∀ (i : Nat) (l : List Nat), xorStream key nonce i (xorStream key nonce i l) = l
  | _, [] => rfl
  | i, b :: bs => by
    simp only [xorStream]
    rw [Nat.xor_assoc, Nat.xor_self, Nat.xor_zero,
      xorStream_invol key nonce (i + 1) bs]

/-- Two model tags whose checksum heads differ by a non-zero XOR mask
are different. -/
theorem gcmTag_head_shift_ne (key n1 n2 b1 b2 : List Nat) (m : Nat)
    (hm : m ≠ 0)
    (hshift : xorAll key ^^^ xorAll n2 ^^^ xorAll b2
        = (xorAll key ^^^ xorAll n1 ^^^ xorAll b1) ^^^ m) :
    gcmTag key n2 b2 ≠ gcmTag key n1 b1 := by
  intro he
  unfold gcmTag at he
  injection he with h1 _
  rw [hshift] at h1
  exact xor_ne_self _ m hm h1

/-- `decryptAPIKey` on a nonce-prefixed byte string opens the suffix
against the prefix nonce. -/
theorem decryptAPIKey_append (nonce2 rest : List Nat)
    (hn2 : nonce2.length = nonceSize) :
    decryptAPIKey (nonce2 ++ rest) = gcmOpen panKey nonce2 rest := by
  have hlen : (nonce2 ++ rest).length = 12 + rest.length := by
    simp only [List.length_append, hn2, nonceSize]
  unfold decryptAPIKey
  rw [if_neg (by
    intro he
    have hl := congrArg List.length he
    rw [hlen] at hl
    simp at hl)]
  rw [if_neg (by
    rw [hlen]
    simp only [nonceSize]
    omega)]
  have ht : (nonce2 ++ rest).take nonceSize = nonce2 := by
    rw [← hn2]
    exact List.take_left nonce2 rest
  have hd : (nonce2 ++ rest).drop nonceSize = rest := by
    rw [← hn2]
    exact List.drop_left nonce2 rest
  rw [ht, hd]

/-- `gcmOpen` on a body-and-tag split: authenticate the trailing tag
bytes, then decrypt the body. -/
theorem gcmOpen_split (nonce2 body2 tg2 : List Nat)
    (ht : tg2.length = tagSize) :
    gcmOpen panKey nonce2 (body2 ++ tg2)
      = if tg2 = gcmTag panKey nonce2 body2
        then .ok (xorStream panKey nonce2 0 body2)
        else .error "cipher: message authentication failed" := by
  have hlen : (body2 ++ tg2).length = body2.length + 16 := by
    simp only [List.length_append, ht, tagSize]
  have hsub : (body2 ++ tg2).length - tagSize = body2.length := by
    rw [hlen]
    simp only [tagSize]
    omega
  unfold gcmOpen
  rw [if_neg (by
    rw [hlen]
    simp only [tagSize]
    omega)]
  have htake : (body2 ++ tg2).take ((body2 ++ tg2).length - tagSize) = body2 := by
    rw [hsub]
    exact List.take_left body2 tg2
  have hdrop : (body2 ++ tg2).drop ((body2 ++ tg2).length - tagSize) = tg2 := by
    rw [hsub]
    exact List.drop_left body2 tg2
  rw [htake, hdrop]

/-- C1: encrypting a non-empty credential byte string with the Vault
and decrypting the result returns the original; and flipping any single
bit of the produced ciphertext (nonce, body or tag region) makes
decryption fail with the authentication error instead of returning any
value. -/
theorem c1_vault_roundtrip_and_tamper (plain nonce : List Nat) (k : Nat)
    (hp : plain ≠ []) (hn : nonce.length = nonceSize)
    (hk : k < 8 * (encryptAPIKey nonce plain).length) :
    decryptAPIKey (encryptAPIKey nonce plain) = .ok plain
    ∧ decryptAPIKey (flipBit (encryptAPIKey nonce plain) k)
        = .error "cipher: message authentication failed" := by
  have henc : encryptAPIKey nonce plain
      = nonce ++ (xorStream panKey nonce 0 plain
          ++ gcmTag panKey nonce (xorStream panKey nonce 0 plain)) := by
    unfold encryptAPIKey gcmSeal
    rw [if_neg hp, List.append_assoc]
  have htl : (gcmTag panKey nonce (xorStream panKey nonce 0 plain)).length
      = tagSize := by
    simp [gcmTag, tagSize]
  have ht16 : (gcmTag panKey nonce (xorStream panKey nonce 0 plain)).length
      = 16 := htl
  have hn12 : nonce.length = 12 := hn
  have hbl : (xorStream panKey nonce 0 plain).length = plain.length :=
    xorStream_length panKey nonce 0 plain
  have hm : (2 : Nat) ^ (k % 8) ≠ 0 := pow_ne_zero _ (by norm_num)
  constructor
  · rw [henc, decryptAPIKey_append _ _ hn, gcmOpen_split nonce _ _ htl,
      if_pos rfl, xorStream_invol]
  · rw [henc] at hk ⊢
    unfold flipBit
    have hDlen : (nonce ++ (xorStream panKey nonce 0 plain
        ++ gcmTag panKey nonce (xorStream panKey nonce 0 plain))).length
        = 12 + (plain.length + 16) := by
      simp only [List.length_append, hn12, hbl, ht16]
    have hj : k / 8 < 12 + (plain.length + 16) := by
      rw [hDlen] at hk
      omega
    rcases Nat.lt_or_ge (k / 8) nonce.length with hcase | hcase
    · rw [List.getD_append _ _ _ _ hcase, List.set_append_left _ _ hcase]
      have hn2 : (nonce.set (k / 8)
          (nonce.getD (k / 8) 0 ^^^ 2 ^ (k % 8))).length = nonceSize := by
        simp [List.length_set, hn]
      rw [decryptAPIKey_append _ _ hn2, gcmOpen_split _ _ _ htl, if_neg ?hA]
      case hA =>
        have hshift : xorAll panKey
            ^^^ xorAll (nonce.set (k / 8) (nonce.getD (k / 8) 0 ^^^ 2 ^ (k % 8)))
            ^^^ xorAll (xorStream panKey nonce 0 plain)
            = (xorAll panKey ^^^ xorAll nonce
                ^^^ xorAll (xorStream panKey nonce 0 plain)) ^^^ 2 ^ (k % 8) := by
          rw [xorAll_set nonce _ _ hcase, ← Nat.xor_assoc, xor_swap_right]
        exact fun heq => gcmTag_head_shift_ne panKey nonce
          (nonce.set (k / 8) (nonce.getD (k / 8) 0 ^^^ 2 ^ (k % 8)))
          (xorStream panKey nonce 0 plain) (xorStream panKey nonce 0 plain)
          (2 ^ (k % 8)) hm hshift heq.symm
    · rw [List.getD_append_right _ _ _ _ hcase, List.set_append_right _ _ hcase]
      rcases Nat.lt_or_ge (k / 8 - nonce.length)
          (xorStream panKey nonce 0 plain).length with hcase2 | hcase2
      · rw [List.getD_append _ _ _ _ hcase2, List.set_append_left _ _ hcase2]
        rw [decryptAPIKey_append _ _ hn, gcmOpen_split _ _ _ htl, if_neg ?hB]
        case hB =>
          have hshift : xorAll panKey ^^^ xorAll nonce
              ^^^ xorAll ((xorStream panKey nonce 0 plain).set
                  (k / 8 - nonce.length)
                  ((xorStream panKey nonce 0 plain).getD
                    (k / 8 - nonce.length) 0 ^^^ 2 ^ (k % 8)))
              = (xorAll panKey ^^^ xorAll nonce
                  ^^^ xorAll (xorStream panKey nonce 0 plain)) ^^^ 2 ^ (k % 8) := by
            rw [xorAll_set _ _ _ hcase2, ← Nat.xor_assoc]
          exact fun heq => gcmTag_head_shift_ne panKey nonce nonce
            (xorStream panKey nonce 0 plain)
            ((xorStream panKey nonce 0 plain).set (k / 8 - nonce.length)
              ((xorStream panKey nonce 0 plain).getD
                (k / 8 - nonce.length) 0 ^^^ 2 ^ (k % 8)))
            (2 ^ (k % 8)) hm hshift heq.symm
      · rw [List.getD_append_right _ _ _ _ hcase2,
          List.set_append_right _ _ hcase2]
        have hj3 : k / 8 - nonce.length
            - (xorStream panKey nonce 0 plain).length
            < (gcmTag panKey nonce (xorStream panKey nonce 0 plain)).length := by
          rw [ht16]
          omega
        have htl2 : ((gcmTag panKey nonce (xorStream panKey nonce 0 plain)).set
            (k / 8 - nonce.length - (xorStream panKey nonce 0 plain).length)
            ((gcmTag panKey nonce (xorStream panKey nonce 0 plain)).getD
              (k / 8 - nonce.length
                - (xorStream panKey nonce 0 plain).length) 0
              ^^^ 2 ^ (k % 8))).length = tagSize := by
          simp [List.length_set, htl]
        rw [decryptAPIKey_append _ _ hn, gcmOpen_split _ _ _ htl2,
          if_neg (set_xor_ne _ _ _ hj3 hm)]

/-- C1 witness: the round-trip and single-bit-tamper theorem at a
concrete 3-byte key, the all-zero 12-byte nonce, and bit 5. -/
theorem c1_vault_roundtrip_and_tamper_witness :
    decryptAPIKey (encryptAPIKey (List.replicate 12 0) [1, 2, 3]) = .ok [1, 2, 3]
    ∧ decryptAPIKey (flipBit (encryptAPIKey (List.replicate 12 0) [1, 2, 3]) 5)
        = .error "cipher: message authentication failed" :=
  c1_vault_roundtrip_and_tamper [1, 2, 3] (List.replicate 12 0) 5
    (by decide) (by decide) (by decide)

end PanEngine
